import Mathlib

/-!
Verification development for the Denon/Marantz AVR integration driver
(`intg-denonavr/media_player.py` and `intg-denonavr/driver.py`).

The Python modules are shallowly embedded:
* dynamic attribute dictionaries become association lists `Dict` over a
  `Value` type covering the value shapes the driver stores (strings,
  booleans, integers, string lists, the two state enums and Python `None`);
* Python `==`/`!=` on those values is modelled by `pyEq` (structural
  equality plus Python's numeric equality between booleans and integers;
  members of the two distinct state enums compare unequal);
* fallible code (a `KeyError` from `d[k]`, an `AttributeError` from
  `None.get`) is modelled by `Option`: `Option.none` is an uncaught
  exception, `some r` a normal result;
* the receiver object (vendor library) is a black box: a command handler
  returns, besides the status code, the trace of receiver operations it
  invoked.
-/

/-- States of the AVR receiver, `avr.States` (external `avr` module). -/
inductive AvrState
  | on
  | off
  | paused
  | playing
  | unavailable
  | unknown
deriving DecidableEq, Repr

/-- Media-player entity states, `ucapi.media_player.States`. -/
inductive EntityState
  | on
  | off
  | paused
  | playing
  | unavailable
  | unknown
deriving DecidableEq, Repr

/-- Runtime values stored in the driver's attribute dictionaries.
`Value.none` is Python's `None`. -/
inductive Value
  | none
  | bool (b : Bool)
  | int (n : Int)
  | str (s : String)
  | strList (l : List String)
  | avrSt (s : AvrState)
  | entitySt (s : EntityState)
deriving DecidableEq, Repr

/-- Python `==` on the values above: structural, except that Python's
booleans equal the integers 0/1.  Values of the two state enums are
modelled as equal only to themselves. -/
def pyEq : Value → Value → Bool
  | Value.none, Value.none => true
  | Value.bool a, Value.bool b => a = b
  | Value.int a, Value.int b => a = b
  | Value.bool a, Value.int b => (if a then (1 : Int) else 0) = b
  | Value.int a, Value.bool b => a = (if b then (1 : Int) else 0)
  | Value.str a, Value.str b => a = b
  | Value.strList a, Value.strList b => a = b
  | Value.avrSt a, Value.avrSt b => a = b
  | Value.entitySt a, Value.entitySt b => a = b
  | _, _ => false

/-- Python truthiness of a value (used by `not self.attributes[MUTED]`). -/
def Value.truthy : Value → Bool
  | Value.none => false
  | Value.bool b => b
  | Value.int n => n ≠ 0
  | Value.str s => s ≠ ""
  | Value.strList l => l ≠ []
  | Value.avrSt _ => true
  | Value.entitySt _ => true

/-- A Python `dict[str, Any]`, modelled as an association list; lookups
see the first binding of a key. -/
abbrev Dict := List (String × Value)

/-- Lookup, the model of both `k in d` and `d[k]` / `d.get(k)`. -/
def Dict.get? : Dict → String → Option Value
  | [], _ => Option.none
  | p :: rest, key => if p.1 = key then some p.2 else Dict.get? rest key

/-- Assignment `d[k] = v`: the key now maps to `v`, the old binding is gone. -/
def Dict.insert (d : Dict) (key : String) (v : Value) : Dict :=
  (key, v) :: d.filter (fun p => p.1 ≠ key)

-- `ucapi.media_player.Attributes` string constants used by the driver.
namespace Attributes

def STATE : String := "state"
def VOLUME : String := "volume"
def MUTED : String := "muted"
def MEDIA_IMAGE_URL : String := "media_image_url"
def MEDIA_TITLE : String := "media_title"
def MEDIA_ARTIST : String := "media_artist"
def MEDIA_ALBUM : String := "media_album"
def MEDIA_TYPE : String := "media_type"
def SOURCE : String := "source"
def SOURCE_LIST : String := "source_list"
def SOUND_MODE : String := "sound_mode"
def SOUND_MODE_LIST : String := "sound_mode_list"

end Attributes

/-- `media_player.py` lines 32-39: mapping of an AVR state to a
media-player entity state. -/
def MEDIA_PLAYER_STATE_MAPPING : List (AvrState × EntityState) :=
  [(AvrState.on, EntityState.on),
   (AvrState.off, EntityState.off),
   (AvrState.paused, EntityState.paused),
   (AvrState.playing, EntityState.playing),
   (AvrState.unavailable, EntityState.unavailable),
   (AvrState.unknown, EntityState.unknown)]

/-- `media_player.py` lines 248-257, `state_from_avr`: convert an AVR state
to a UC API media-player state.  The Python argument is dynamically typed;
a runtime value that is not a member of `avr.States` is not a key of
`MEDIA_PLAYER_STATE_MAPPING` and falls through to `States.UNKNOWN`. -/
def state_from_avr (avr_state : Value) : EntityState :=
  match avr_state with
  | Value.avrSt s =>
    match MEDIA_PLAYER_STATE_MAPPING.lookup s with
    | some entity_state => entity_state
    | Option.none => EntityState.unknown
  | _ => EntityState.unknown

-- `ucapi.media_player.Commands` string constants used by the dispatch.
namespace Commands

def ON : String := "on"
def OFF : String := "off"
def TOGGLE : String := "toggle"
def PLAY_PAUSE : String := "play_pause"
def STOP : String := "stop"
def PREVIOUS : String := "previous"
def NEXT : String := "next"
def VOLUME : String := "volume"
def VOLUME_UP : String := "volume_up"
def VOLUME_DOWN : String := "volume_down"
def MUTE_TOGGLE : String := "mute_toggle"
def MUTE : String := "mute"
def UNMUTE : String := "unmute"
def SELECT_SOURCE : String := "select_source"
def SELECT_SOUND_MODE : String := "select_sound_mode"
def CURSOR_UP : String := "cursor_up"
def CURSOR_DOWN : String := "cursor_down"
def CURSOR_LEFT : String := "cursor_left"
def CURSOR_RIGHT : String := "cursor_right"
def CURSOR_ENTER : String := "cursor_enter"
def BACK : String := "back"
def MENU : String := "menu"
def CONTEXT_MENU : String := "context_menu"
def INFO : String := "info"

end Commands

/-- `ucapi.media_player.Features` members used by the entity. -/
inductive Feature
  | on_off
  | toggle
  | volume
  | volume_up_down
  | mute_toggle
  | mute
  | unmute
  | play_pause
  | next
  | previous
  | media_title
  | media_artist
  | media_album
  | media_image_url
  | media_type
  | select_source
  | dpad
  | menu
  | context_menu
  | info
  | select_sound_mode
  | stop
deriving DecidableEq, Repr

/-- `ucapi.StatusCodes` values relevant to the dispatch. -/
inductive StatusCodes
  | ok
  | bad_request
  | not_found
  | not_implemented
  | service_unavailable
  | server_error
deriving DecidableEq, Repr

/-- One operation invoked on the receiver connection (`avr.DenonDevice`). -/
inductive ReceiverCall
  | play_pause
  | stop
  | next
  | previous
  | set_volume_level (volume : Value)
  | volume_up
  | volume_down
  | mute (b : Bool)
  | power_on
  | power_off
  | power_toggle
  | select_source (source : Value)
  | select_sound_mode (mode : Value)
  | cursor_up
  | cursor_down
  | cursor_left
  | cursor_right
  | cursor_enter
  | back
  | setup
  | options
  | info
  | send_simple_command (cmd : String)
deriving DecidableEq, Repr

/-- The receiver connection as a black box: each operation returns a
status code.  What the driver observes of the receiver is the status
code of each call, so the connection is a response function. -/
structure Receiver where
  respond : ReceiverCall → StatusCodes

/-- `config.AvrDevice`: the persisted device configuration fields read by
`DenonMediaPlayer.__init__` (the `config` module itself is not under
src/; these fields and their meanings are stated by the spec's
DeviceConfig data model and are read verbatim by `media_player.py`). -/
structure AvrDevice where
  id : String
  name : String
  support_sound_mode : Bool
  is_denon : Bool
  use_telnet : Bool

/-- Modelled from the spec: the repository's `simplecommand` module is not
under src/.  The spec only states that there is a statically configured
set of simple commands per device flavor (Denon vs. generic,
telnet-capable vs. not), that Denon has additional commands, and that the
telnet-Denon set covers both the shared and the Denon-specific commands
(code comment at `media_player.py` line 178).  Representative members
model that structure. -/
def ALL_COMMANDS : List String := ["OUTPUT_1", "OUTPUT_2"]

/-- Modelled from the spec: Denon flavor adds Denon-specific simple
commands to the shared set. -/
def ALL_COMMANDS_DENON : List String := ALL_COMMANDS ++ ["DELAY_UP", "DELAY_DOWN"]

/-- Modelled from the spec: telnet-capable generic flavor adds
telnet-only simple commands to the shared set. -/
def ALL_COMMANDS_TELNET : List String := ALL_COMMANDS ++ ["ECO_AUTO"]

/-- Modelled from the spec: the telnet-Denon set covers the shared, the
Denon-specific and the telnet-only simple commands. -/
def ALL_COMMANDS_TELNET_DENON : List String := ALL_COMMANDS_DENON ++ ["ECO_AUTO"]

/-- The media-player entity, `media_player.DenonMediaPlayer`: the fields
of the object that `command` and `filter_changed_attributes` read.
`receiver` models `self._receiver` (checked against `None` by `command`). -/
structure DenonMediaPlayer where
  receiver : Option Receiver
  features : List Feature
  attributes : Dict
  simple_commands : List String

/-- `media_player.py` lines 45-111, `DenonMediaPlayer.__init__`: the
features, initial attributes and simple-command set of a new entity,
derived from the device configuration flags. -/
def DenonMediaPlayer.init (device : AvrDevice) (receiver : Receiver) : DenonMediaPlayer :=
  let features : List Feature :=
    [Feature.on_off, Feature.toggle, Feature.volume, Feature.volume_up_down,
     Feature.mute_toggle, Feature.mute, Feature.unmute, Feature.play_pause,
     Feature.next, Feature.previous, Feature.media_title, Feature.media_artist,
     Feature.media_album, Feature.media_image_url, Feature.media_type,
     Feature.select_source, Feature.dpad, Feature.menu, Feature.context_menu,
     Feature.info]
  let attributes : Dict :=
    [(Attributes.STATE, Value.entitySt EntityState.unavailable),
     (Attributes.VOLUME, Value.int 0),
     (Attributes.MUTED, Value.bool false),
     (Attributes.MEDIA_IMAGE_URL, Value.str ""),
     (Attributes.MEDIA_TITLE, Value.str ""),
     (Attributes.MEDIA_ARTIST, Value.str ""),
     (Attributes.MEDIA_ALBUM, Value.str ""),
     (Attributes.SOURCE, Value.str ""),
     (Attributes.SOURCE_LIST, Value.strList [])]
  -- lines 84-87: sound mode support from configuration
  let features :=
    if device.support_sound_mode then features ++ [Feature.select_sound_mode] else features
  let attributes :=
    if device.support_sound_mode then
      Dict.insert (Dict.insert attributes Attributes.SOUND_MODE (Value.str ""))
        Attributes.SOUND_MODE_LIST (Value.strList [])
    else attributes
  -- lines 89-100: Denon has additional simple commands; Denon also gets STOP
  let simple_commands :=
    if device.is_denon then
      if device.use_telnet then ALL_COMMANDS_TELNET_DENON else ALL_COMMANDS_DENON
    else
      if device.use_telnet then ALL_COMMANDS_TELNET else ALL_COMMANDS
  let features :=
    if device.is_denon then features ++ [Feature.stop] else features
  { receiver := some receiver
    features := features
    attributes := attributes
    simple_commands := simple_commands }

/-- `media_player.py` lines 235-245, `DenonMediaPlayer._key_update_helper`:
skip a `None` value; otherwise record the value under the key when the
entity's recorded value is missing or differs. -/
def DenonMediaPlayer.key_update_helper (self : DenonMediaPlayer) (key : String)
    (value : Value) (attributes : Dict) : Dict :=
  if value = Value.none then attributes
  else
    match Dict.get? self.attributes key with
    | some recorded =>
      if pyEq recorded value then attributes else Dict.insert attributes key value
    | Option.none => Dict.insert attributes key value

/-- `media_player.py` lines 199-207: the seven attribute keys run through
`_key_update_helper` by the loop of `filter_changed_attributes`. -/
def mediaAttrKeys : List String :=
  [Attributes.MEDIA_ARTIST, Attributes.MEDIA_ALBUM, Attributes.MEDIA_IMAGE_URL,
   Attributes.MEDIA_TITLE, Attributes.MUTED, Attributes.SOURCE, Attributes.VOLUME]

/-- `media_player.py` lines 195-197: if the update carries a state, it is
translated by `state_from_avr` and diffed through `_key_update_helper`. -/
def stateStage (self : DenonMediaPlayer) (update : Dict) (attributes : Dict) : Dict :=
  match Dict.get? update Attributes.STATE with
  | some v =>
    self.key_update_helper Attributes.STATE (Value.entitySt (state_from_avr v)) attributes
  | Option.none => attributes

/-- Body of the loop at `media_player.py` lines 199-209: one key of
`mediaAttrKeys`, diffed through `_key_update_helper` when the update
carries it. -/
def updStep (self : DenonMediaPlayer) (update : Dict) (attributes : Dict)
    (attr : String) : Dict :=
  match Dict.get? update attr with
  | some v => self.key_update_helper attr v attributes
  | Option.none => attributes

/-- `media_player.py` lines 211-214: the source list is copied into the
delta only when both the update and the recorded attributes carry it and
the two differ. -/
def sourceListStage (self : DenonMediaPlayer) (update : Dict) (attributes : Dict) : Dict :=
  match Dict.get? update Attributes.SOURCE_LIST, Dict.get? self.attributes Attributes.SOURCE_LIST with
  | some uv, some recorded =>
    if ¬pyEq uv recorded then Dict.insert attributes Attributes.SOURCE_LIST uv else attributes
  | _, _ => attributes

/-- `media_player.py` lines 217-218: the sound mode diffed through
`_key_update_helper` (inside the feature-guarded block). -/
def soundModeSub (self : DenonMediaPlayer) (update : Dict) (attributes : Dict) : Dict :=
  match Dict.get? update Attributes.SOUND_MODE with
  | some v => self.key_update_helper Attributes.SOUND_MODE v attributes
  | Option.none => attributes

/-- `media_player.py` lines 219-222: the sound mode list handled like the
source list (inside the feature-guarded block). -/
def soundModeListSub (self : DenonMediaPlayer) (update : Dict) (attributes : Dict) : Dict :=
  match Dict.get? update Attributes.SOUND_MODE_LIST, Dict.get? self.attributes Attributes.SOUND_MODE_LIST with
  | some uv, some recorded =>
    if ¬pyEq uv recorded then Dict.insert attributes Attributes.SOUND_MODE_LIST uv else attributes
  | _, _ => attributes

/-- `media_player.py` lines 216-222: the two sound-mode keys are
processed only when the entity has the `SELECT_SOUND_MODE` feature. -/
def soundModeStage (self : DenonMediaPlayer) (update : Dict) (attributes : Dict) : Dict :=
  if Feature.select_sound_mode ∈ self.features then
    soundModeListSub self update (soundModeSub self update attributes)
  else attributes

/-- `media_player.py` lines 193-222 of `filter_changed_attributes`: the
diff before the state-OFF force-clear rule. -/
def DenonMediaPlayer.changed_attributes (self : DenonMediaPlayer) (update : Dict) : Dict :=
  soundModeStage self update
    (sourceListStage self update
      (mediaAttrKeys.foldl (updStep self update) (stateStage self update [])))

/-- The six media keys force-cleared by `media_player.py` lines 224-231. -/
def forceClearKeys : List String :=
  [Attributes.MEDIA_IMAGE_URL, Attributes.MEDIA_ALBUM, Attributes.MEDIA_ARTIST,
   Attributes.MEDIA_TITLE, Attributes.MEDIA_TYPE, Attributes.SOURCE]

/-- `media_player.py` lines 224-231: when the computed delta carries
state OFF, the six media keys are overwritten with the empty string. -/
def forceClearStage (attributes : Dict) : Dict :=
  match Dict.get? attributes Attributes.STATE with
  | some v =>
    if pyEq v (Value.entitySt EntityState.off) then
      Dict.insert (Dict.insert (Dict.insert (Dict.insert (Dict.insert (Dict.insert attributes
        Attributes.MEDIA_IMAGE_URL (Value.str ""))
        Attributes.MEDIA_ALBUM (Value.str ""))
        Attributes.MEDIA_ARTIST (Value.str ""))
        Attributes.MEDIA_TITLE (Value.str ""))
        Attributes.MEDIA_TYPE (Value.str ""))
        Attributes.SOURCE (Value.str "")
    else attributes
  | Option.none => attributes

/-- `media_player.py` lines 186-233, `filter_changed_attributes`: the
attribute diff followed by the state-OFF force-clear rule. -/
def DenonMediaPlayer.filter_changed_attributes (self : DenonMediaPlayer) (update : Dict) : Dict :=
  forceClearStage (self.changed_attributes update)

/-- `params.get(k)` where `params : dict | None`.  `None.get` raises
(`Option.none` result); otherwise Python's `dict.get` returns the value
or `None`. -/
def paramsGet (params : Option Dict) (k : String) : Option Value :=
  match params with
  | Option.none => Option.none
  | some p => some ((Dict.get? p k).getD Value.none)

/-- A normal receiver call: the status code the receiver returns,
together with the one-element trace of the operation invoked. -/
def callReceiver (r : Receiver) (c : ReceiverCall) : Option (StatusCodes × List ReceiverCall) :=
  some (r.respond c, [c])

/-- `media_player.py` lines 113-184, `DenonMediaPlayer.command`: the
command dispatch.  The result is `Option.none` when the Python code
raises (KeyError on a missing `muted` attribute, AttributeError on
`None.get`); otherwise `some (status, calls)` where `calls` is the trace
of receiver operations invoked. -/
def DenonMediaPlayer.command (self : DenonMediaPlayer) (cmd_id : String)
    (params : Option Dict) : Option (StatusCodes × List ReceiverCall) :=
  match self.receiver with
  | Option.none => some (StatusCodes.service_unavailable, [])
  | some r =>
    if cmd_id = Commands.PLAY_PAUSE then callReceiver r ReceiverCall.play_pause
    else if cmd_id = Commands.STOP then callReceiver r ReceiverCall.stop
    else if cmd_id = Commands.NEXT then callReceiver r ReceiverCall.next
    else if cmd_id = Commands.PREVIOUS then callReceiver r ReceiverCall.previous
    else if cmd_id = Commands.VOLUME then
      match paramsGet params "volume" with
      | some v => callReceiver r (ReceiverCall.set_volume_level v)
      | Option.none => Option.none
    else if cmd_id = Commands.VOLUME_UP then callReceiver r ReceiverCall.volume_up
    else if cmd_id = Commands.VOLUME_DOWN then callReceiver r ReceiverCall.volume_down
    else if cmd_id = Commands.MUTE_TOGGLE then
      match Dict.get? self.attributes Attributes.MUTED with
      | some muted => callReceiver r (ReceiverCall.mute (!muted.truthy))
      | Option.none => Option.none
    else if cmd_id = Commands.MUTE then callReceiver r (ReceiverCall.mute true)
    else if cmd_id = Commands.UNMUTE then callReceiver r (ReceiverCall.mute false)
    else if cmd_id = Commands.ON then callReceiver r ReceiverCall.power_on
    else if cmd_id = Commands.OFF then callReceiver r ReceiverCall.power_off
    else if cmd_id = Commands.TOGGLE then callReceiver r ReceiverCall.power_toggle
    else if cmd_id = Commands.SELECT_SOURCE then
      match paramsGet params "source" with
      | some v => callReceiver r (ReceiverCall.select_source v)
      | Option.none => Option.none
    else if cmd_id = Commands.SELECT_SOUND_MODE then
      match paramsGet params "mode" with
      | some v => callReceiver r (ReceiverCall.select_sound_mode v)
      | Option.none => Option.none
    else if cmd_id = Commands.CURSOR_UP then callReceiver r ReceiverCall.cursor_up
    else if cmd_id = Commands.CURSOR_DOWN then callReceiver r ReceiverCall.cursor_down
    else if cmd_id = Commands.CURSOR_LEFT then callReceiver r ReceiverCall.cursor_left
    else if cmd_id = Commands.CURSOR_RIGHT then callReceiver r ReceiverCall.cursor_right
    else if cmd_id = Commands.CURSOR_ENTER then callReceiver r ReceiverCall.cursor_enter
    else if cmd_id = Commands.BACK then callReceiver r ReceiverCall.back
    else if cmd_id = Commands.MENU then callReceiver r ReceiverCall.setup
    else if cmd_id = Commands.CONTEXT_MENU then callReceiver r ReceiverCall.options
    else if cmd_id = Commands.INFO then callReceiver r ReceiverCall.info
    -- line 179: the catch-all tests ALL_COMMANDS_TELNET_DENON, not the
    -- device's own simple-command set
    else if cmd_id ∈ ALL_COMMANDS_TELNET_DENON then
      callReceiver r (ReceiverCall.send_simple_command cmd_id)
    else some (StatusCodes.not_implemented, [])

/-- The command identifiers of the structured `match` cases of
`DenonMediaPlayer.command` (`media_player.py` lines 129-177). -/
def structuredCommands : List String :=
  [Commands.PLAY_PAUSE, Commands.STOP, Commands.NEXT, Commands.PREVIOUS,
   Commands.VOLUME, Commands.VOLUME_UP, Commands.VOLUME_DOWN,
   Commands.MUTE_TOGGLE, Commands.MUTE, Commands.UNMUTE, Commands.ON,
   Commands.OFF, Commands.TOGGLE, Commands.SELECT_SOURCE,
   Commands.SELECT_SOUND_MODE, Commands.CURSOR_UP, Commands.CURSOR_DOWN,
   Commands.CURSOR_LEFT, Commands.CURSOR_RIGHT, Commands.CURSOR_ENTER,
   Commands.BACK, Commands.MENU, Commands.CONTEXT_MENU, Commands.INFO]

/-- Modelled from the spec: `config.avr_from_entity_id` (the `config`
module is not under src/).  Entity identifiers are deterministic,
`<entityType>.<deviceId>` (spec section 6, and
`driver.py._entities_from_avr`); the function recovers the device id
after the first dot, and `driver.py` line 141 shows it can return
`None` (modelled for an identifier without a dot). -/
def avr_from_entity_id (entity_id : String) : Option String :=
  match entity_id.toList.dropWhile (fun c => c ≠ '.') with
  | [] => Option.none
  | _ :: rest => some (String.mk rest)

/-- Externally visible operations performed on a configured receiver
object by the driver's event handlers. -/
inductive DriverEffect
  | avrDisconnect (dict_key : String)
  | avrRemoveAllListeners (dict_key : String)
deriving DecidableEq, Repr

/-- `driver.py` lines 135-151, `on_unsubscribe_entities`: for each entity
identifier, derive the AVR id; skip when it is `None`; when the AVR id is
a key of `_configured_avrs`, the handler subscripts `_configured_avrs`
with **the entity id** and calls `disconnect` and
`remove_all_listeners` on that object.  A subscript with a key not in
the mapping raises `KeyError` (`Option.none` result, aborting the
handler).  `configured` is the key set of `_configured_avrs`. -/
def on_unsubscribe_entities (configured : List String) :
    List String → Option (List DriverEffect)
  | [] => some []
  | entity_id :: rest =>
    match avr_from_entity_id entity_id with
    | Option.none => on_unsubscribe_entities configured rest
    | some avr_id =>
      if avr_id ∈ configured then
        if entity_id ∈ configured then
          match on_unsubscribe_entities configured rest with
          | some effects =>
            some (DriverEffect.avrDisconnect entity_id ::
              DriverEffect.avrRemoveAllListeners entity_id :: effects)
          | Option.none => Option.none
        else Option.none
      else on_unsubscribe_entities configured rest

/-- `driver.py` line 51 of `receiver_status_poller`: the duration passed
to `asyncio.sleep`, `min(10.0, max(1.0, interval - elapsed_time))`.
Times are modelled as rationals. -/
def poller_sleep_duration (interval elapsed_time : ℚ) : ℚ :=
  min 10 (max 1 (interval - elapsed_time))

/-- Stated from the spec's words (for comparison with the code): the
sleep duration "interval minus the elapsed work time, clamped to the
range [1 second, interval]". -/
def poller_sleep_spec (interval elapsed_time : ℚ) : ℚ :=
  min interval (max 1 (interval - elapsed_time))

/-- What `_key_update_helper key value` leaves under `key`, given what the
accumulator held there (`fallback`). -/
def kuhGet (self : DenonMediaPlayer) (key : String) (value : Value)
    (fallback : Option Value) : Option Value :=
  if value = Value.none then fallback
  else
    match Dict.get? self.attributes key with
    | some recorded => if pyEq recorded value then fallback else some value
    | Option.none => some value

/-- What the state block leaves under `k`. -/
def stateStageGet (self : DenonMediaPlayer) (update : Dict) (k : String)
    (fallback : Option Value) : Option Value :=
  if k = Attributes.STATE then
    match Dict.get? update Attributes.STATE with
    | some v => kuhGet self Attributes.STATE (Value.entitySt (state_from_avr v)) fallback
    | Option.none => fallback
  else fallback

/-- What one loop iteration for key `attr` leaves under `attr`. -/
def updStepGet (self : DenonMediaPlayer) (update : Dict) (attr : String)
    (fallback : Option Value) : Option Value :=
  match Dict.get? update attr with
  | some v => kuhGet self attr v fallback
  | Option.none => fallback

/-- What the source-list block leaves under `k`. -/
def sourceListStageGet (self : DenonMediaPlayer) (update : Dict) (k : String)
    (fallback : Option Value) : Option Value :=
  if k = Attributes.SOURCE_LIST then
    match Dict.get? update Attributes.SOURCE_LIST, Dict.get? self.attributes Attributes.SOURCE_LIST with
    | some uv, some recorded => if ¬pyEq uv recorded then some uv else fallback
    | _, _ => fallback
  else fallback

/-- What the sound-mode sub-block leaves under `k`. -/
def soundModeSubGet (self : DenonMediaPlayer) (update : Dict) (k : String)
    (fallback : Option Value) : Option Value :=
  if k = Attributes.SOUND_MODE then
    match Dict.get? update Attributes.SOUND_MODE with
    | some v => kuhGet self Attributes.SOUND_MODE v fallback
    | Option.none => fallback
  else fallback

/-- What the sound-mode-list sub-block leaves under `k`. -/
def soundModeListSubGet (self : DenonMediaPlayer) (update : Dict) (k : String)
    (fallback : Option Value) : Option Value :=
  if k = Attributes.SOUND_MODE_LIST then
    match Dict.get? update Attributes.SOUND_MODE_LIST, Dict.get? self.attributes Attributes.SOUND_MODE_LIST with
    | some uv, some recorded => if ¬pyEq uv recorded then some uv else fallback
    | _, _ => fallback
  else fallback

/-- What the feature-guarded sound-mode block leaves under `k`. -/
def soundModeStageGet (self : DenonMediaPlayer) (update : Dict) (k : String)
    (fallback : Option Value) : Option Value :=
  if Feature.select_sound_mode ∈ self.features then
    soundModeListSubGet self update k (soundModeSubGet self update k fallback)
  else fallback

/-- The value (if any) the diff of `filter_changed_attributes` holds
under key `k` before the state-OFF force-clear rule. -/
def preDeltaGet (self : DenonMediaPlayer) (update : Dict) (k : String) : Option Value :=
  soundModeStageGet self update k
    (sourceListStageGet self update k
      (if k ∈ mediaAttrKeys then
        updStepGet self update k (stateStageGet self update k Option.none)
      else stateStageGet self update k Option.none))

/-- The value (if any) the delta of `filter_changed_attributes` holds
under key `k`. -/
def deltaGet (self : DenonMediaPlayer) (update : Dict) (k : String) : Option Value :=
  match preDeltaGet self update Attributes.STATE with
  | some v =>
    if pyEq v (Value.entitySt EntityState.off) then
      if k ∈ forceClearKeys then some (Value.str "") else preDeltaGet self update k
    else preDeltaGet self update k
  | Option.none => preDeltaGet self update k

/-- When `_key_update_helper key value` admits the pair into the delta:
the value is not `None` and any recorded value differs (Python `!=`). -/
def kuhAdmits (self : DenonMediaPlayer) (key : String) (value : Value) : Prop :=
  value ≠ Value.none ∧
    ∀ recorded, Dict.get? self.attributes key = some recorded → pyEq recorded value = false

/-- The amended membership condition of claim C1: when key `k` belongs to
the delta of `filter_changed_attributes` (outside the force-clear rule). -/
def c1Admits (self : DenonMediaPlayer) (update : Dict) (k : String) : Prop :=
  (k = Attributes.STATE ∧ ∃ v, Dict.get? update Attributes.STATE = some v ∧
    kuhAdmits self Attributes.STATE (Value.entitySt (state_from_avr v)))
  ∨ (k ∈ mediaAttrKeys ∧ ∃ v, Dict.get? update k = some v ∧ kuhAdmits self k v)
  ∨ (k = Attributes.SOURCE_LIST ∧ ∃ uv recorded,
      Dict.get? update Attributes.SOURCE_LIST = some uv ∧
      Dict.get? self.attributes Attributes.SOURCE_LIST = some recorded ∧
      pyEq uv recorded = false)
  ∨ (Feature.select_sound_mode ∈ self.features ∧ k = Attributes.SOUND_MODE ∧
      ∃ v, Dict.get? update Attributes.SOUND_MODE = some v ∧
        kuhAdmits self Attributes.SOUND_MODE v)
  ∨ (Feature.select_sound_mode ∈ self.features ∧ k = Attributes.SOUND_MODE_LIST ∧
      ∃ uv recorded, Dict.get? update Attributes.SOUND_MODE_LIST = some uv ∧
        Dict.get? self.attributes Attributes.SOUND_MODE_LIST = some recorded ∧
        pyEq uv recorded = false)

/-- A receiver connection answering OK to every operation, for concrete
instantiation. -/
def okReceiver : Receiver := { respond := fun _ => StatusCodes.ok }

/-- Concrete entity for claim C1: recorded muted attribute `false`. -/
def c1Entity : DenonMediaPlayer :=
  { receiver := Option.none, features := [],
    attributes := [(Attributes.MUTED, Value.bool false)], simple_commands := [] }

/-- Concrete update for claim C1: muted becomes `true`. -/
def c1Update : Dict := [(Attributes.MUTED, Value.bool true)]

/-- Concrete update for claim C1's counterexample: a key never examined
by `filter_changed_attributes`. -/
def c1BadUpdate : Dict := [("bogus_key", Value.str "x")]

/-- Concrete entity for claim C2: recorded state ON. -/
def c2Entity : DenonMediaPlayer :=
  { receiver := Option.none, features := [],
    attributes := [(Attributes.STATE, Value.entitySt EntityState.on)],
    simple_commands := [] }

/-- Concrete update for claim C2: the receiver reports OFF. -/
def c2Update : Dict := [(Attributes.STATE, Value.avrSt AvrState.off)]

/-- Concrete generic non-telnet device for claim C3. -/
def c3Device : AvrDevice :=
  { id := "avr2", name := "AVR", support_sound_mode := false,
    is_denon := false, use_telnet := false }

/-- Concrete entity for claim C3, constructed by `__init__` for the
generic non-telnet flavor. -/
def c3Entity : DenonMediaPlayer := DenonMediaPlayer.init c3Device okReceiver

/-- Concrete device without sound-mode support, for claim C6. -/
def c6Device : AvrDevice :=
  { id := "avr1", name := "AVR", support_sound_mode := false,
    is_denon := true, use_telnet := true }

/-- Concrete update supplying sound-mode keys, for claim C6. -/
def c6Update : Dict :=
  [(Attributes.SOUND_MODE, Value.str "STEREO"),
   (Attributes.SOUND_MODE_LIST, Value.strList ["STEREO", "AUTO"])]

/-- Concrete entity for claim C7: recorded muted attribute `true`, bound
receiver. -/
def c7Entity : DenonMediaPlayer :=
  { receiver := some okReceiver, features := [],
    attributes := [(Attributes.MUTED, Value.bool true)], simple_commands := [] }

/-- Concrete entity for claim C7's counterexample: bound receiver but no
muted attribute recorded. -/
def c7AbsentEntity : DenonMediaPlayer :=
  { receiver := some okReceiver, features := [], attributes := [],
    simple_commands := [] }

/-- Concrete entity for claim C8: no bound receiver. -/
def c8Entity : DenonMediaPlayer :=
  { receiver := Option.none, features := [],
    attributes := [(Attributes.MUTED, Value.bool false)], simple_commands := [] }

/-- Concrete entity for claim C10's counterexample: recorded state ON. -/
def c10Entity : DenonMediaPlayer :=
  { receiver := Option.none, features := [],
    attributes := [(Attributes.STATE, Value.entitySt EntityState.on)],
    simple_commands := [] }

/-- Concrete update for claim C10's counterexample: `None` state value. -/
def c10Update : Dict := [(Attributes.STATE, Value.none)]

/-- Concrete entity for claim C10's witness: recorded muted `true`. -/
def c10WitnessEntity : DenonMediaPlayer :=
  { receiver := Option.none, features := [],
    attributes := [(Attributes.MUTED, Value.bool true)], simple_commands := [] }

/-- Concrete update for claim C10's witness: `None` muted value. -/
def c10WitnessUpdate : Dict := [(Attributes.MUTED, Value.none)]

theorem Dict.get_filter_ne (d : Dict) (key k : String) (h : ¬k = key) :
    Dict.get? (d.filter (fun p => p.1 ≠ key)) k = Dict.get? d k := by
  induction d with
  | nil => rfl
  | cons p rest ih =>
    rw [List.filter_cons]
    by_cases hp : p.1 = key
    · have hd : (decide (p.1 ≠ key)) = false := by simp [hp]
      rw [hd]
      have hpk : ¬p.1 = k := fun hk => h (by rw [← hk, hp])
      simp only [Bool.false_eq_true, if_false, Dict.get?, if_neg hpk]
      exact ih
    · have hd : (decide (p.1 ≠ key)) = true := by simp [hp]
      rw [hd]
      simp only [if_true, Dict.get?]
      by_cases hpk : p.1 = k
      · simp [hpk]
      · simp only [if_neg hpk]
        exact ih

theorem Dict.get_insert (d : Dict) (key : String) (v : Value) (k : String) :
    Dict.get? (Dict.insert d key v) k = if k = key then some v else Dict.get? d k := by
  unfold Dict.insert
  by_cases h : k = key
  · simp [Dict.get?, h]
  · simp only [Dict.get?, if_neg h]
    rw [if_neg (fun hk : key = k => h hk.symm)]
    exact Dict.get_filter_ne d key k h

theorem key_update_helper_get (self : DenonMediaPlayer) (key : String) (value : Value)
    (d : Dict) (k : String) :
    Dict.get? (self.key_update_helper key value d) k =
      if k = key then kuhGet self key value (Dict.get? d k) else Dict.get? d k := by
  unfold DenonMediaPlayer.key_update_helper kuhGet
  by_cases hv : value = Value.none
  · simp [hv]
  · simp only [if_neg hv]
    cases hr : Dict.get? self.attributes key with
    | none => simp [Dict.get_insert]
    | some recorded =>
      by_cases hp : pyEq recorded value
      · simp [hp]
      · simp [hp, Dict.get_insert]

theorem stateStage_get (self : DenonMediaPlayer) (update : Dict) (d : Dict) (k : String) :
    Dict.get? (stateStage self update d) k = stateStageGet self update k (Dict.get? d k) := by
  unfold stateStage stateStageGet
  cases hu : Dict.get? update Attributes.STATE with
  | none => simp
  | some v => rw [key_update_helper_get]

theorem updStep_get (self : DenonMediaPlayer) (update : Dict) (d : Dict) (attr k : String) :
    Dict.get? (updStep self update d attr) k =
      if k = attr then updStepGet self update attr (Dict.get? d k) else Dict.get? d k := by
  unfold updStep updStepGet
  cases hu : Dict.get? update attr with
  | none => simp
  | some v => rw [key_update_helper_get]

theorem foldl_updStep_get (self : DenonMediaPlayer) (update : Dict) (L : List String)
    (hL : L.Nodup) (d : Dict) (k : String) :
    Dict.get? (L.foldl (updStep self update) d) k =
      if k ∈ L then updStepGet self update k (Dict.get? d k) else Dict.get? d k := by
  induction L generalizing d with
  | nil => simp
  | cons a rest ih =>
    have ha : a ∉ rest := (List.nodup_cons.mp hL).1
    have hrest : rest.Nodup := (List.nodup_cons.mp hL).2
    simp only [List.foldl]
    rw [ih hrest]
    by_cases hk : k ∈ rest
    · have hka : ¬k = a := fun h => ha (h ▸ hk)
      rw [if_pos hk, updStep_get, if_neg hka, if_pos (List.mem_cons.mpr (Or.inr hk))]
    · rw [if_neg hk, updStep_get]
      by_cases hka : k = a
      · subst hka
        rw [if_pos rfl, if_pos (List.mem_cons.mpr (Or.inl rfl))]
      · rw [if_neg hka, if_neg (fun h => (List.mem_cons.mp h).elim hka hk)]

theorem sourceListStage_get (self : DenonMediaPlayer) (update : Dict) (d : Dict) (k : String) :
    Dict.get? (sourceListStage self update d) k =
      sourceListStageGet self update k (Dict.get? d k) := by
  unfold sourceListStage sourceListStageGet
  cases hu : Dict.get? update Attributes.SOURCE_LIST with
  | none => simp
  | some uv =>
    cases hr : Dict.get? self.attributes Attributes.SOURCE_LIST with
    | none => simp
    | some recorded =>
      by_cases hp : pyEq uv recorded
      · simp [hp]
      · simp [hp, Dict.get_insert]

theorem soundModeSub_get (self : DenonMediaPlayer) (update : Dict) (d : Dict) (k : String) :
    Dict.get? (soundModeSub self update d) k = soundModeSubGet self update k (Dict.get? d k) := by
  unfold soundModeSub soundModeSubGet
  cases hu : Dict.get? update Attributes.SOUND_MODE with
  | none => simp
  | some v => rw [key_update_helper_get]

theorem soundModeListSub_get (self : DenonMediaPlayer) (update : Dict) (d : Dict) (k : String) :
    Dict.get? (soundModeListSub self update d) k =
      soundModeListSubGet self update k (Dict.get? d k) := by
  unfold soundModeListSub soundModeListSubGet
  cases hu : Dict.get? update Attributes.SOUND_MODE_LIST with
  | none => simp
  | some uv =>
    cases hr : Dict.get? self.attributes Attributes.SOUND_MODE_LIST with
    | none => simp
    | some recorded =>
      by_cases hp : pyEq uv recorded
      · simp [hp]
      · simp [hp, Dict.get_insert]

theorem soundModeStage_get (self : DenonMediaPlayer) (update : Dict) (d : Dict) (k : String) :
    Dict.get? (soundModeStage self update d) k =
      soundModeStageGet self update k (Dict.get? d k) := by
  unfold soundModeStage soundModeStageGet
  by_cases hf : Feature.select_sound_mode ∈ self.features
  · rw [if_pos hf, if_pos hf, soundModeListSub_get, soundModeSub_get]
  · rw [if_neg hf, if_neg hf]

theorem changed_attributes_get (self : DenonMediaPlayer) (update : Dict) (k : String) :
    Dict.get? (self.changed_attributes update) k = preDeltaGet self update k := by
  unfold DenonMediaPlayer.changed_attributes preDeltaGet
  rw [soundModeStage_get, sourceListStage_get,
    foldl_updStep_get self update mediaAttrKeys (by decide), stateStage_get]
  rfl

theorem forceClearStage_get (d : Dict) (k : String) :
    Dict.get? (forceClearStage d) k =
      match Dict.get? d Attributes.STATE with
      | some v =>
        if pyEq v (Value.entitySt EntityState.off) then
          if k ∈ forceClearKeys then some (Value.str "") else Dict.get? d k
        else Dict.get? d k
      | Option.none => Dict.get? d k := by
  unfold forceClearStage
  cases hs : Dict.get? d Attributes.STATE with
  | none => rfl
  | some v =>
    by_cases hp : pyEq v (Value.entitySt EntityState.off)
    · simp only [if_pos hp, Dict.get_insert]
      by_cases hm : k ∈ forceClearKeys
      · rw [if_pos hm]
        fin_cases hm <;> simp [Attributes.SOURCE, Attributes.MEDIA_TYPE,
          Attributes.MEDIA_TITLE, Attributes.MEDIA_ARTIST, Attributes.MEDIA_ALBUM,
          Attributes.MEDIA_IMAGE_URL]
      · rw [if_neg hm]
        simp only [forceClearKeys, List.mem_cons, List.not_mem_nil, or_false] at hm
        push_neg at hm
        obtain ⟨h1, h2, h3, h4, h5, h6⟩ := hm
        simp [h1, h2, h3, h4, h5, h6]
    · simp [if_neg hp]

/-- Per-key characterization of the whole of `filter_changed_attributes`. -/
theorem filter_changed_attributes_get (self : DenonMediaPlayer) (update : Dict) (k : String) :
    Dict.get? (self.filter_changed_attributes update) k = deltaGet self update k := by
  unfold DenonMediaPlayer.filter_changed_attributes deltaGet
  rw [forceClearStage_get, changed_attributes_get self update Attributes.STATE,
    changed_attributes_get self update k]

theorem pyEq_entitySt_iff (v : Value) (s : EntityState) :
    pyEq v (Value.entitySt s) = true ↔ v = Value.entitySt s := by
  cases v <;> simp [pyEq]

theorem kuhGet_isSome (self : DenonMediaPlayer) (key : String) (value : Value) :
    ((kuhGet self key value Option.none).isSome = true) ↔ kuhAdmits self key value := by
  unfold kuhGet kuhAdmits
  by_cases hv : value = Value.none
  · simp [hv]
  · rw [if_neg hv]
    cases hr : Dict.get? self.attributes key with
    | none => simp [hv]
    | some recorded =>
      by_cases hp : pyEq recorded value
      · simp [hp, hv]
      · simp [hp, hv]

/-- What the diff (before force-clear) holds under the state key. -/
theorem preDeltaGet_state (self : DenonMediaPlayer) (update : Dict) :
    preDeltaGet self update Attributes.STATE =
      match Dict.get? update Attributes.STATE with
      | some v => kuhGet self Attributes.STATE (Value.entitySt (state_from_avr v)) Option.none
      | Option.none => Option.none := by
  unfold preDeltaGet soundModeStageGet soundModeListSubGet soundModeSubGet
    sourceListStageGet stateStageGet
  by_cases hf : Feature.select_sound_mode ∈ self.features <;>
    simp [hf, mediaAttrKeys, Attributes.STATE, Attributes.SOUND_MODE,
      Attributes.SOUND_MODE_LIST, Attributes.SOURCE_LIST, Attributes.MEDIA_ARTIST,
      Attributes.MEDIA_ALBUM, Attributes.MEDIA_IMAGE_URL, Attributes.MEDIA_TITLE,
      Attributes.MUTED, Attributes.SOURCE, Attributes.VOLUME]

/-- What the diff (before force-clear) holds under a key of the
seven-key loop. -/
theorem preDeltaGet_media (self : DenonMediaPlayer) (update : Dict) (k : String)
    (hk : k ∈ mediaAttrKeys) :
    preDeltaGet self update k = updStepGet self update k Option.none := by
  unfold preDeltaGet soundModeStageGet soundModeListSubGet soundModeSubGet
    sourceListStageGet stateStageGet
  fin_cases hk <;>
    by_cases hf : Feature.select_sound_mode ∈ self.features <;>
      simp [hf, mediaAttrKeys, Attributes.STATE, Attributes.SOUND_MODE,
        Attributes.SOUND_MODE_LIST, Attributes.SOURCE_LIST, Attributes.MEDIA_ARTIST,
        Attributes.MEDIA_ALBUM, Attributes.MEDIA_IMAGE_URL, Attributes.MEDIA_TITLE,
        Attributes.MUTED, Attributes.SOURCE, Attributes.VOLUME]

/-- What the diff (before force-clear) holds under the source-list key. -/
theorem preDeltaGet_source_list (self : DenonMediaPlayer) (update : Dict) :
    preDeltaGet self update Attributes.SOURCE_LIST =
      match Dict.get? update Attributes.SOURCE_LIST,
          Dict.get? self.attributes Attributes.SOURCE_LIST with
      | some uv, some recorded => if ¬pyEq uv recorded then some uv else Option.none
      | _, _ => Option.none := by
  unfold preDeltaGet soundModeStageGet soundModeListSubGet soundModeSubGet
    sourceListStageGet stateStageGet
  by_cases hf : Feature.select_sound_mode ∈ self.features <;>
    simp [hf, mediaAttrKeys, Attributes.STATE, Attributes.SOUND_MODE,
      Attributes.SOUND_MODE_LIST, Attributes.SOURCE_LIST, Attributes.MEDIA_ARTIST,
      Attributes.MEDIA_ALBUM, Attributes.MEDIA_IMAGE_URL, Attributes.MEDIA_TITLE,
      Attributes.MUTED, Attributes.SOURCE, Attributes.VOLUME]

/-- What the diff (before force-clear) holds under the sound-mode key. -/
theorem preDeltaGet_sound_mode (self : DenonMediaPlayer) (update : Dict) :
    preDeltaGet self update Attributes.SOUND_MODE =
      if Feature.select_sound_mode ∈ self.features then
        updStepGet self update Attributes.SOUND_MODE Option.none
      else Option.none := by
  unfold preDeltaGet soundModeStageGet soundModeListSubGet soundModeSubGet
    sourceListStageGet stateStageGet updStepGet
  by_cases hf : Feature.select_sound_mode ∈ self.features <;>
    simp [hf, mediaAttrKeys, Attributes.STATE, Attributes.SOUND_MODE,
      Attributes.SOUND_MODE_LIST, Attributes.SOURCE_LIST, Attributes.MEDIA_ARTIST,
      Attributes.MEDIA_ALBUM, Attributes.MEDIA_IMAGE_URL, Attributes.MEDIA_TITLE,
      Attributes.MUTED, Attributes.SOURCE, Attributes.VOLUME]

/-- What the diff (before force-clear) holds under the sound-mode-list
key. -/
theorem preDeltaGet_sound_mode_list (self : DenonMediaPlayer) (update : Dict) :
    preDeltaGet self update Attributes.SOUND_MODE_LIST =
      if Feature.select_sound_mode ∈ self.features then
        match Dict.get? update Attributes.SOUND_MODE_LIST,
            Dict.get? self.attributes Attributes.SOUND_MODE_LIST with
        | some uv, some recorded => if ¬pyEq uv recorded then some uv else Option.none
        | _, _ => Option.none
      else Option.none := by
  unfold preDeltaGet soundModeStageGet soundModeListSubGet soundModeSubGet
    sourceListStageGet stateStageGet
  by_cases hf : Feature.select_sound_mode ∈ self.features <;>
    simp [hf, mediaAttrKeys, Attributes.STATE, Attributes.SOUND_MODE,
      Attributes.SOUND_MODE_LIST, Attributes.SOURCE_LIST, Attributes.MEDIA_ARTIST,
      Attributes.MEDIA_ALBUM, Attributes.MEDIA_IMAGE_URL, Attributes.MEDIA_TITLE,
      Attributes.MUTED, Attributes.SOURCE, Attributes.VOLUME]

/-- A key handled by no block of `filter_changed_attributes` is never in
the diff (before force-clear). -/
theorem preDeltaGet_other (self : DenonMediaPlayer) (update : Dict) (k : String)
    (h1 : ¬k = Attributes.STATE) (h2 : k ∉ mediaAttrKeys)
    (h3 : ¬k = Attributes.SOURCE_LIST) (h4 : ¬k = Attributes.SOUND_MODE)
    (h5 : ¬k = Attributes.SOUND_MODE_LIST) :
    preDeltaGet self update k = Option.none := by
  unfold preDeltaGet soundModeStageGet soundModeListSubGet soundModeSubGet
    sourceListStageGet stateStageGet
  by_cases hf : Feature.select_sound_mode ∈ self.features <;>
    simp [hf, h1, h2, h3, h4, h5]

/-- For a key outside the six force-cleared media keys, the delta holds
exactly what the diff before the force-clear rule holds. -/
theorem delta_eq_pre_of_not_forced (self : DenonMediaPlayer) (update : Dict) (k : String)
    (hfc : ¬k ∈ forceClearKeys) :
    Dict.get? (self.filter_changed_attributes update) k = preDeltaGet self update k := by
  rw [filter_changed_attributes_get]
  unfold deltaGet
  cases hs : preDeltaGet self update Attributes.STATE with
  | none => rfl
  | some v =>
    dsimp only
    by_cases hp : pyEq v (Value.entitySt EntityState.off)
    · rw [if_pos hp, if_neg hfc]
    · rw [if_neg hp]

/-- The delta holds the same state entry as the diff before force-clear:
the force-clear rule never writes the state key. -/
theorem delta_state_eq_pre (self : DenonMediaPlayer) (update : Dict) :
    Dict.get? (self.filter_changed_attributes update) Attributes.STATE =
      preDeltaGet self update Attributes.STATE :=
  delta_eq_pre_of_not_forced self update Attributes.STATE (by decide)

/-- A key the diff leaves out and the force-clear rule does not write is
absent from the delta. -/
theorem delta_none_of_pre_none (self : DenonMediaPlayer) (update : Dict) (k : String)
    (hk : preDeltaGet self update k = Option.none) (hfc : ¬k ∈ forceClearKeys) :
    Dict.get? (self.filter_changed_attributes update) k = Option.none := by
  rw [delta_eq_pre_of_not_forced self update k hfc]
  exact hk

/-- When the diff carries state OFF, every force-cleared key is the empty
string in the delta. -/
theorem delta_forced (self : DenonMediaPlayer) (update : Dict) (k : String)
    (hfc : k ∈ forceClearKeys)
    (hoff : preDeltaGet self update Attributes.STATE = some (Value.entitySt EntityState.off)) :
    Dict.get? (self.filter_changed_attributes update) k = some (Value.str "") := by
  rw [filter_changed_attributes_get]
  unfold deltaGet
  cases hs : preDeltaGet self update Attributes.STATE with
  | none => exact absurd (hs.symm.trans hoff) (by simp)
  | some v =>
    dsimp only
    have hv : v = Value.entitySt EntityState.off := Option.some.inj (hs.symm.trans hoff)
    subst hv
    rw [if_pos (by decide :
      pyEq (Value.entitySt EntityState.off) (Value.entitySt EntityState.off) = true),
      if_pos hfc]

/-- `SELECT_SOUND_MODE` is a feature of a constructed entity exactly when
the device configuration enables sound-mode support. -/
theorem init_select_sound_mode_feature (device : AvrDevice) (r : Receiver) :
    (Feature.select_sound_mode ∈ (DenonMediaPlayer.init device r).features) ↔
      device.support_sound_mode = true := by
  unfold DenonMediaPlayer.init
  cases hsm : device.support_sound_mode <;> cases hd : device.is_denon <;> simp

/-- An entity without the `SELECT_SOUND_MODE` feature never has the
sound-mode keys in its delta. -/
theorem no_sound_mode_feature_delta (self : DenonMediaPlayer) (update : Dict)
    (hf : Feature.select_sound_mode ∉ self.features) :
    Dict.get? (self.filter_changed_attributes update) Attributes.SOUND_MODE = Option.none ∧
    Dict.get? (self.filter_changed_attributes update) Attributes.SOUND_MODE_LIST = Option.none := by
  have hsm : preDeltaGet self update Attributes.SOUND_MODE = Option.none := by
    rw [preDeltaGet_sound_mode, if_neg hf]
  have hsml : preDeltaGet self update Attributes.SOUND_MODE_LIST = Option.none := by
    rw [preDeltaGet_sound_mode_list, if_neg hf]
  exact ⟨delta_none_of_pre_none self update Attributes.SOUND_MODE hsm (by decide),
    delta_none_of_pre_none self update Attributes.SOUND_MODE_LIST hsml (by decide)⟩

/-- C5: the receiver-state → entity-state mapping used by
`state_from_avr` is total: each defined receiver state maps to the
same-named entity state (ON, OFF, PAUSED, PLAYING map to non-UNKNOWN
states; UNAVAILABLE and UNKNOWN map to themselves), and any runtime
value outside the defined receiver-state enum maps to UNKNOWN. -/
theorem c5_state_mapping_total :
    state_from_avr (Value.avrSt AvrState.on) = EntityState.on ∧
    state_from_avr (Value.avrSt AvrState.off) = EntityState.off ∧
    state_from_avr (Value.avrSt AvrState.paused) = EntityState.paused ∧
    state_from_avr (Value.avrSt AvrState.playing) = EntityState.playing ∧
    state_from_avr (Value.avrSt AvrState.unavailable) = EntityState.unavailable ∧
    state_from_avr (Value.avrSt AvrState.unknown) = EntityState.unknown ∧
    ∀ v : Value, (∀ s : AvrState, v ≠ Value.avrSt s) →
      state_from_avr v = EntityState.unknown := by
  refine ⟨rfl, rfl, rfl, rfl, rfl, rfl, ?_⟩
  intro v h
  cases v with
  | avrSt s => exact absurd rfl (h s)
  | none => rfl
  | bool b => rfl
  | int n => rfl
  | str s => rfl
  | strList l => rfl
  | entitySt s => rfl

/-- C5 witness: the unmapped-value clause at a concrete non-state value. -/
theorem c5_witness : state_from_avr (Value.str "NOT_A_STATE") = EntityState.unknown :=
  c5_state_mapping_total.2.2.2.2.2.2 (Value.str "NOT_A_STATE")
    (fun _ h => Value.noConfusion h)

/-- C8: dispatching any command with no bound receiver returns
SERVICE_UNAVAILABLE, with no receiver operation invoked (empty call
trace) and no exception. -/
theorem c8_no_receiver_service_unavailable (self : DenonMediaPlayer)
    (cmd_id : String) (params : Option Dict) (h : self.receiver = Option.none) :
    self.command cmd_id params = some (StatusCodes.service_unavailable, []) := by
  unfold DenonMediaPlayer.command
  rw [h]

/-- C8 witness: the ON command on an entity with no bound receiver. -/
theorem c8_witness :
    DenonMediaPlayer.command c8Entity Commands.ON Option.none =
      some (StatusCodes.service_unavailable, []) :=
  c8_no_receiver_service_unavailable c8Entity Commands.ON Option.none rfl

/-- C9 counterexample: at a configured interval of 20 s and zero work
time the code sleeps `min(10, max(1, 20 - 0)) = 10` s, not the 20 s that
clamping `interval - elapsed` to `[1, interval]` demands. -/
theorem c9_counterexample :
    poller_sleep_duration 20 0 = 10 ∧ poller_sleep_spec 20 0 = 20 ∧
    poller_sleep_duration 20 0 ≠ poller_sleep_spec 20 0 := by
  unfold poller_sleep_duration poller_sleep_spec
  norm_num

/-- C9 (amended): the sleep duration equals interval minus elapsed time
clamped to the fixed range [1 s, 10 s] — the upper bound is the
hard-coded 10.0 of `driver.py` line 51, not the configured interval.
Hence the sleep lies in [1, 10], equals the un-clamped difference
whenever that difference already lies in [1, 10], and agrees with the
spec's [1, interval] clamping at the default interval of 10 s. -/
theorem c9_sleep_clamped (interval elapsed_time : ℚ) :
    1 ≤ poller_sleep_duration interval elapsed_time ∧
    poller_sleep_duration interval elapsed_time ≤ 10 ∧
    (1 ≤ interval - elapsed_time → interval - elapsed_time ≤ 10 →
      poller_sleep_duration interval elapsed_time = interval - elapsed_time) ∧
    (interval = 10 →
      poller_sleep_duration interval elapsed_time = poller_sleep_spec interval elapsed_time) := by
  unfold poller_sleep_duration poller_sleep_spec
  refine ⟨le_min (by norm_num) (le_max_left 1 _), min_le_left _ _, ?_, ?_⟩
  · intro h1 h2
    rw [max_eq_right h1, min_eq_right h2]
  · intro h
    subst h
    rfl

/-- C9 witness: at the default 10 s interval and 3 s of work, the code's
sleep agrees with the spec's clamping and equals the difference 7 s. -/
theorem c9_witness :
    poller_sleep_duration 10 3 = poller_sleep_spec 10 3 ∧
    poller_sleep_duration 10 3 = 10 - 3 :=
  ⟨(c9_sleep_clamped 10 3).2.2.2 rfl,
   (c9_sleep_clamped 10 3).2.2.1 (by norm_num) (by norm_num)⟩

/-- C4 (code bug): unsubscribing the media-player entity of the
configured receiver "avr1" derives the AVR id "avr1", which is
configured; the handler then subscripts `_configured_avrs` with the full
entity identifier "media_player.avr1" (`driver.py` line 150), which is
not a key, so the handler aborts with KeyError and the receiver is
neither disconnected nor stripped of its listeners. -/
theorem c4_unsubscribe_keyerror :
    avr_from_entity_id "media_player.avr1" = some "avr1" ∧
    "avr1" ∈ ["avr1"] ∧
    on_unsubscribe_entities ["avr1"] ["media_player.avr1"] = Option.none := by
  refine ⟨?_, ?_, ?_⟩ <;> decide

/-- C2: whenever the computed delta carries state OFF, the delta carries
empty-string entries for media image URL, album, artist, title, media
type and source, regardless of their individual diffs. -/
theorem c2_state_off_force_clears (self : DenonMediaPlayer) (update : Dict)
    (h : Dict.get? (self.filter_changed_attributes update) Attributes.STATE =
      some (Value.entitySt EntityState.off)) :
    ∀ k ∈ forceClearKeys,
      Dict.get? (self.filter_changed_attributes update) k = some (Value.str "") := by
  intro k hk
  rw [delta_state_eq_pre] at h
  exact delta_forced self update k hk h

/-- C2 witness: a recorded-ON entity updated to OFF has the media title
cleared to the empty string in its delta. -/
theorem c2_witness :
    Dict.get? (DenonMediaPlayer.filter_changed_attributes c2Entity c2Update)
      Attributes.MEDIA_TITLE = some (Value.str "") :=
  c2_state_off_force_clears c2Entity c2Update (by decide) Attributes.MEDIA_TITLE (by decide)

/-- C6: an entity constructed with sound-mode support disabled never has
the sound-mode or sound-mode-list keys in its delta, whatever its current
attributes and whatever the update supplies. -/
theorem c6_no_sound_mode_in_delta (device : AvrDevice) (r : Receiver)
    (attrs update : Dict) (h : device.support_sound_mode = false) :
    Dict.get? (DenonMediaPlayer.filter_changed_attributes
        { DenonMediaPlayer.init device r with attributes := attrs } update)
      Attributes.SOUND_MODE = Option.none ∧
    Dict.get? (DenonMediaPlayer.filter_changed_attributes
        { DenonMediaPlayer.init device r with attributes := attrs } update)
      Attributes.SOUND_MODE_LIST = Option.none := by
  apply no_sound_mode_feature_delta
  intro hmem
  have : device.support_sound_mode = true :=
    (init_select_sound_mode_feature device r).mp hmem
  rw [h] at this
  exact Bool.noConfusion this

/-- C6 witness: a sound-mode-less entity given an update that supplies
both sound-mode keys still has neither in its delta. -/
theorem c6_witness :
    Dict.get? (DenonMediaPlayer.filter_changed_attributes
        { DenonMediaPlayer.init c6Device okReceiver with attributes := [] } c6Update)
      Attributes.SOUND_MODE = Option.none ∧
    Dict.get? (DenonMediaPlayer.filter_changed_attributes
        { DenonMediaPlayer.init c6Device okReceiver with attributes := [] } c6Update)
      Attributes.SOUND_MODE_LIST = Option.none :=
  c6_no_sound_mode_in_delta c6Device okReceiver [] c6Update rfl

/-- C7 (amended): with a bound receiver, MUTE_TOGGLE calls `mute` with
the negation of the recorded muted attribute when that attribute is
present — `mute(false)` for recorded `true`, `mute(true)` for recorded
`false`; when the attribute is absent the dictionary subscript
`self.attributes[MUTED]` raises KeyError and no receiver operation is
invoked (rather than calling `mute(true)` as the claim states). -/
theorem c7_mute_toggle (self : DenonMediaPlayer) (r : Receiver) (params : Option Dict)
    (hr : self.receiver = some r) :
    (Dict.get? self.attributes Attributes.MUTED = some (Value.bool true) →
      self.command Commands.MUTE_TOGGLE params =
        some (r.respond (ReceiverCall.mute false), [ReceiverCall.mute false])) ∧
    (Dict.get? self.attributes Attributes.MUTED = some (Value.bool false) →
      self.command Commands.MUTE_TOGGLE params =
        some (r.respond (ReceiverCall.mute true), [ReceiverCall.mute true])) ∧
    (Dict.get? self.attributes Attributes.MUTED = Option.none →
      self.command Commands.MUTE_TOGGLE params = Option.none) := by
  unfold DenonMediaPlayer.command
  rw [hr]
  refine ⟨fun h => ?_, fun h => ?_, fun h => ?_⟩ <;>
    simp [h, callReceiver, Value.truthy, Commands.MUTE_TOGGLE, Commands.PLAY_PAUSE,
      Commands.STOP, Commands.NEXT, Commands.PREVIOUS, Commands.VOLUME,
      Commands.VOLUME_UP, Commands.VOLUME_DOWN]

/-- C7 witness: recorded muted `true` yields a `mute(false)` call. -/
theorem c7_witness :
    DenonMediaPlayer.command c7Entity Commands.MUTE_TOGGLE Option.none =
      some (StatusCodes.ok, [ReceiverCall.mute false]) :=
  (c7_mute_toggle c7Entity okReceiver Option.none rfl).1 rfl

/-- C7 counterexample: with the muted attribute absent (and a bound
receiver) the dispatch does not call `mute(true)`: the subscript raises
KeyError and the command aborts with no receiver call. -/
theorem c7_counterexample :
    Dict.get? c7AbsentEntity.attributes Attributes.MUTED = Option.none ∧
    c7AbsentEntity.receiver = some okReceiver ∧
    DenonMediaPlayer.command c7AbsentEntity Commands.MUTE_TOGGLE Option.none =
      Option.none :=
  ⟨rfl, rfl, rfl⟩

/-- C3 counterexample: on the generic non-telnet device the command
"DELAY_UP" is outside both the structured set and the device's
configured simple-command set, yet the dispatch forwards it to the
receiver — its catch-all (`media_player.py` line 179) tests the full
telnet-Denon set — instead of returning NOT_IMPLEMENTED without a
receiver call. -/
theorem c3_counterexample :
    "DELAY_UP" ∉ structuredCommands ∧
    "DELAY_UP" ∉ c3Entity.simple_commands ∧
    c3Entity.receiver = some okReceiver ∧
    DenonMediaPlayer.command c3Entity "DELAY_UP" Option.none =
      some (StatusCodes.ok, [ReceiverCall.send_simple_command "DELAY_UP"]) := by
  refine ⟨by decide, by decide, rfl, by decide⟩

/-- C3 (amended): with a bound receiver, a command outside the structured
set is checked against the full telnet-Denon simple-command set
regardless of the device's flavor; a command also outside that set
returns NOT_IMPLEMENTED with no receiver operation invoked. -/
theorem c3_not_implemented (self : DenonMediaPlayer) (r : Receiver) (cmd_id : String)
    (params : Option Dict) (hr : self.receiver = some r)
    (h1 : cmd_id ∉ structuredCommands) (h2 : cmd_id ∉ ALL_COMMANDS_TELNET_DENON) :
    self.command cmd_id params = some (StatusCodes.not_implemented, []) := by
  unfold DenonMediaPlayer.command
  rw [hr]
  dsimp only
  simp only [structuredCommands, List.mem_cons, List.not_mem_nil, or_false, not_or] at h1
  obtain ⟨n1, n2, n3, n4, n5, n6, n7, n8, n9, n10, n11, n12, n13, n14, n15, n16,
    n17, n18, n19, n20, n21, n22, n23, n24⟩ := h1
  rw [if_neg n1, if_neg n2, if_neg n3, if_neg n4, if_neg n5, if_neg n6, if_neg n7,
    if_neg n8, if_neg n9, if_neg n10, if_neg n11, if_neg n12, if_neg n13, if_neg n14,
    if_neg n15, if_neg n16, if_neg n17, if_neg n18, if_neg n19, if_neg n20,
    if_neg n21, if_neg n22, if_neg n23, if_neg n24, if_neg h2]

/-- C3 witness: a command unknown to every set is NOT_IMPLEMENTED. -/
theorem c3_witness :
    DenonMediaPlayer.command c3Entity "FROBNICATE" Option.none =
      some (StatusCodes.not_implemented, []) :=
  c3_not_implemented c3Entity okReceiver "FROBNICATE" Option.none rfl
    (by decide) (by decide)

/-- C10 counterexample: a `None` state value in the update is not
omitted from the delta — `state_from_avr(None)` is UNKNOWN, which is
inserted because it differs from the recorded ON state. -/
theorem c10_counterexample :
    Dict.get? c10Update Attributes.STATE = some Value.none ∧
    Attributes.STATE ∉ forceClearKeys ∧
    Dict.get? (DenonMediaPlayer.filter_changed_attributes c10Entity c10Update)
      Attributes.STATE = some (Value.entitySt EntityState.unknown) := by
  refine ⟨?_, ?_, ?_⟩ <;> decide

/-- C10 (amended): for the seven keys of the `_key_update_helper` loop
(media artist, album, image URL, title, muted, source, volume) a `None`
update value leaves the key out of the delta even when the recorded
value differs, except that a force-cleared media field may still be set
to the empty string by the state-OFF rule.  The state key must be
excluded: a `None` state is translated to UNKNOWN by `state_from_avr`
before the diff and can be inserted (see the counterexample). -/
theorem c10_none_omitted (self : DenonMediaPlayer) (update : Dict) (k : String)
    (hk : k ∈ mediaAttrKeys) (hv : Dict.get? update k = some Value.none) :
    Dict.get? (self.filter_changed_attributes update) k = Option.none ∨
    (k ∈ forceClearKeys ∧
      Dict.get? (self.filter_changed_attributes update) Attributes.STATE =
        some (Value.entitySt EntityState.off) ∧
      Dict.get? (self.filter_changed_attributes update) k = some (Value.str "")) := by
  have hpre : preDeltaGet self update k = Option.none := by
    rw [preDeltaGet_media self update k hk]
    unfold updStepGet kuhGet
    rw [hv]
    rfl
  by_cases hfc : k ∈ forceClearKeys
  · by_cases hoff : preDeltaGet self update Attributes.STATE =
        some (Value.entitySt EntityState.off)
    · right
      refine ⟨hfc, ?_, delta_forced self update k hfc hoff⟩
      rw [delta_state_eq_pre]
      exact hoff
    · left
      rw [filter_changed_attributes_get]
      unfold deltaGet
      cases hs : preDeltaGet self update Attributes.STATE with
      | none => exact hpre
      | some v =>
        dsimp only
        by_cases hp : pyEq v (Value.entitySt EntityState.off)
        · exact absurd (hs.trans (congrArg some ((pyEq_entitySt_iff v EntityState.off).mp hp)))
            hoff
        · rw [if_neg hp]
          exact hpre
  · left
    exact delta_none_of_pre_none self update k hpre hfc

/-- C10 witness: a recorded muted `true` with a `None` muted update is
left out of the delta. -/
theorem c10_witness :
    Dict.get? (DenonMediaPlayer.filter_changed_attributes c10WitnessEntity c10WitnessUpdate)
      Attributes.MUTED = Option.none ∨
    (Attributes.MUTED ∈ forceClearKeys ∧
      Dict.get? (DenonMediaPlayer.filter_changed_attributes c10WitnessEntity c10WitnessUpdate)
        Attributes.STATE = some (Value.entitySt EntityState.off) ∧
      Dict.get? (DenonMediaPlayer.filter_changed_attributes c10WitnessEntity c10WitnessUpdate)
        Attributes.MUTED = some (Value.str "")) :=
  c10_none_omitted c10WitnessEntity c10WitnessUpdate Attributes.MUTED
    (by decide) (by decide)

/-- C1 counterexample: the update supplies "bogus_key" with a value, the
key is absent from the recorded attributes and is not a force-cleared
media field, yet the delta does not contain it —
`filter_changed_attributes` only examines the fixed attribute keys. -/
theorem c1_counterexample :
    Dict.get? c1BadUpdate "bogus_key" = some (Value.str "x") ∧
    Dict.get? c1Entity.attributes "bogus_key" = Option.none ∧
    "bogus_key" ∉ forceClearKeys ∧
    Dict.get? (DenonMediaPlayer.filter_changed_attributes c1Entity c1BadUpdate)
      "bogus_key" = Option.none := by
  refine ⟨?_, ?_, ?_, ?_⟩ <;> decide

/-- C1 (amended): outside the media fields written by the state-OFF
force-clear rule, the delta contains a key iff the function handles that
key and its handling admits it: for the seven loop keys, the update
supplies a non-None value that is absent from the recorded attributes or
differs from the recorded value; for state, likewise after translating
the supplied value with `state_from_avr`; for source-list — and, only
when the entity has sound-mode support, sound-mode and sound-mode-list —
per their blocks (the two list keys additionally require the key to be
present in the recorded attributes). Keys outside this fixed set never
appear. -/
theorem c1_delta_membership (self : DenonMediaPlayer) (update : Dict) (k : String)
    (hexcl : ¬(k ∈ forceClearKeys ∧
      Dict.get? (self.filter_changed_attributes update) Attributes.STATE =
        some (Value.entitySt EntityState.off))) :
    (Dict.get? (self.filter_changed_attributes update) k).isSome = true ↔
      c1Admits self update k := by
  have hdelta : Dict.get? (self.filter_changed_attributes update) k =
      preDeltaGet self update k := by
    by_cases hfc : k ∈ forceClearKeys
    · rw [filter_changed_attributes_get]
      unfold deltaGet
      cases hs : preDeltaGet self update Attributes.STATE with
      | none => rfl
      | some v =>
        dsimp only
        by_cases hp : pyEq v (Value.entitySt EntityState.off)
        · exact absurd ⟨hfc, by
            rw [delta_state_eq_pre, hs]
            exact congrArg some ((pyEq_entitySt_iff v EntityState.off).mp hp)⟩ hexcl
        · rw [if_neg hp]
    · exact delta_eq_pre_of_not_forced self update k hfc
  rw [hdelta]
  by_cases h1 : k = Attributes.STATE
  · subst h1
    have hm : Attributes.STATE ∉ mediaAttrKeys := by decide
    have hsl : ¬(Attributes.STATE = Attributes.SOURCE_LIST) := by decide
    have hsm : ¬(Attributes.STATE = Attributes.SOUND_MODE) := by decide
    have hsml : ¬(Attributes.STATE = Attributes.SOUND_MODE_LIST) := by decide
    rw [preDeltaGet_state]
    cases hu : Dict.get? update Attributes.STATE with
    | none => simp [c1Admits, hu, hm, hsl, hsm, hsml]
    | some v =>
      dsimp only
      rw [kuhGet_isSome]
      simp [c1Admits, hu, hm, hsl, hsm, hsml]
  · by_cases h2 : k ∈ mediaAttrKeys
    · have h3 : ¬k = Attributes.SOURCE_LIST := by rintro rfl; revert h2; decide
      have h4 : ¬k = Attributes.SOUND_MODE := by rintro rfl; revert h2; decide
      have h5 : ¬k = Attributes.SOUND_MODE_LIST := by rintro rfl; revert h2; decide
      rw [preDeltaGet_media self update k h2]
      unfold updStepGet
      cases hu : Dict.get? update k with
      | none => simp [c1Admits, hu, h1, h2, h3, h4, h5]
      | some v =>
        dsimp only
        rw [kuhGet_isSome]
        simp [c1Admits, hu, h1, h2, h3, h4, h5]
    · by_cases h3 : k = Attributes.SOURCE_LIST
      · subst h3
        have hsm : ¬(Attributes.SOURCE_LIST = Attributes.SOUND_MODE) := by decide
        have hsml : ¬(Attributes.SOURCE_LIST = Attributes.SOUND_MODE_LIST) := by decide
        rw [preDeltaGet_source_list]
        cases hu : Dict.get? update Attributes.SOURCE_LIST with
        | none => simp [c1Admits, hu, h1, h2, hsm, hsml]
        | some uv =>
          cases hrec : Dict.get? self.attributes Attributes.SOURCE_LIST with
          | none => simp [c1Admits, hu, hrec, h1, h2, hsm, hsml]
          | some recorded =>
            dsimp only
            by_cases hp : pyEq uv recorded <;>
              simp [c1Admits, hu, hrec, hp, h1, h2, hsm, hsml]
      · by_cases h4 : k = Attributes.SOUND_MODE
        · subst h4
          have hsml : ¬(Attributes.SOUND_MODE = Attributes.SOUND_MODE_LIST) := by decide
          rw [preDeltaGet_sound_mode]
          by_cases hf : Feature.select_sound_mode ∈ self.features
          · rw [if_pos hf]
            unfold updStepGet
            cases hu : Dict.get? update Attributes.SOUND_MODE with
            | none => simp [c1Admits, hu, h1, h2, h3, hf, hsml]
            | some v =>
              dsimp only
              rw [kuhGet_isSome]
              simp [c1Admits, hu, h1, h2, h3, hf, hsml]
          · rw [if_neg hf]
            simp [c1Admits, h1, h2, h3, hf, hsml]
        · by_cases h5 : k = Attributes.SOUND_MODE_LIST
          · subst h5
            rw [preDeltaGet_sound_mode_list]
            by_cases hf : Feature.select_sound_mode ∈ self.features
            · rw [if_pos hf]
              cases hu : Dict.get? update Attributes.SOUND_MODE_LIST with
              | none => simp [c1Admits, hu, h1, h2, h3, h4, hf]
              | some uv =>
                cases hrec : Dict.get? self.attributes Attributes.SOUND_MODE_LIST with
                | none => simp [c1Admits, hu, hrec, h1, h2, h3, h4, hf]
                | some recorded =>
                  dsimp only
                  by_cases hp : pyEq uv recorded <;>
                    simp [c1Admits, hu, hrec, hp, h1, h2, h3, h4, hf]
            · rw [if_neg hf]
              simp [c1Admits, h1, h2, h3, h4, hf]
          · rw [preDeltaGet_other self update k h1 h2 h3 h4 h5]
            simp [c1Admits, h1, h2, h3, h4, h5]

/-- C1 witness: a changed muted value is in the delta, and the
characterization applies at that input. -/
theorem c1_witness :
    ((Dict.get? (DenonMediaPlayer.filter_changed_attributes c1Entity c1Update)
      Attributes.MUTED).isSome = true ↔ c1Admits c1Entity c1Update Attributes.MUTED) :=
  c1_delta_membership c1Entity c1Update Attributes.MUTED (by decide)

